import Mathlib

/-!
Verification development for the configuration-driven generation engine of
the create-another-app scaffolder (src/utils/scaffold.js).

File contents and JavaScript string values are modelled as `List Char`.
A configuration field the collector leaves undefined is `Option.none`;
a JavaScript string comparison `x === "s"` on a possibly-undefined field is
modelled as `x = some s`, and `x !== "s"` as `x ≠ some s` (true for an
undefined field, as in JavaScript).
-/

namespace Scaffold

/-- JavaScript substring test, as in `String.prototype.includes`. -/
def containsSub (p : List Char) : List Char → Bool
  | [] => p.isEmpty
  | c :: rest => p.isPrefixOf (c :: rest) || containsSub p rest

/-- Number of start positions at which the pattern `p` occurs in `l`. -/
def countOccs (p : List Char) : List Char → Nat
  | [] => 0
  | c :: rest => (if p.isPrefixOf (c :: rest) then 1 else 0) + countOccs p rest

/-- Key list of an association list (the property names of a JS object). -/
def keys (m : List (List Char × List Char)) : List (List Char) :=
  m.map Prod.fst

/-- The validated Configuration Record (spec section 3).  String-valued
enum fields keep their JavaScript string values. -/
structure Config where
  projectType : List Char
  frontendFramework : Option (List Char)
  includeTailwind : Bool
  backendTemplate : Option (List Char)
  database : Option (List Char)
  additionalFeatures : List (List Char)
  installDependencies : Bool

def strFullstack : List Char := "fullstack".toList
def strFrontend : List Char := "frontend".toList
def strBackend : List Char := "backend".toList
def strReact : List Char := "react".toList
def strReactTs : List Char := "react-ts".toList
def strNextjs : List Char := "nextjs".toList
def strNextjsTs : List Char := "nextjs-ts".toList
def strExpressJs : List Char := "express-js".toList
def strExpressTs : List Char := "express-ts".toList
def strTs : List Char := "ts".toList
def strNone : List Char := "none".toList
def strMongodb : List Char := "mongodb".toList
def strPostgresql : List Char := "postgresql".toList
def strEnv : List Char := "env".toList
def strEslint : List Char := "eslint".toList
def strPrettier : List Char := "prettier".toList
def strAuth : List Char := "auth".toList

def strExpress : List Char := "express".toList
def verExpress : List Char := "^4.18.2".toList
def strCors : List Char := "cors".toList
def verCors : List Char := "^2.8.5".toList
def strDotenv : List Char := "dotenv".toList
def verDotenv : List Char := "^16.3.1".toList
def strMongoose : List Char := "mongoose".toList
def verMongoose : List Char := "^8.0.3".toList
def strPg : List Char := "pg".toList
def verPg : List Char := "^8.11.3".toList
def strBcryptjs : List Char := "bcryptjs".toList
def verBcryptjs : List Char := "^2.4.3".toList
def strJsonwebtoken : List Char := "jsonwebtoken".toList
def verJsonwebtoken : List Char := "^9.0.2".toList
def strNodemon : List Char := "nodemon".toList
def verNodemon : List Char := "^3.0.1".toList
def strTypesExpress : List Char := "@types/express".toList
def verTypesExpress : List Char := "^4.17.17".toList
def strTypesCors : List Char := "@types/cors".toList
def verTypesCors : List Char := "^2.8.13".toList
def strTypesNode : List Char := "@types/node".toList
def verTypesNode : List Char := "^20.10.6".toList
def strTypescript : List Char := "typescript".toList
def verTypescript : List Char := "^5.3.3".toList
def strTsx : List Char := "tsx".toList
def verTsx : List Char := "^4.7.0".toList
def strTypesPg : List Char := "@types/pg".toList
def verTypesPg : List Char := "^8.10.9".toList

def strDashBackend : List Char := "-backend".toList
def strVersion100 : List Char := "1.0.0".toList
def strModule : List Char := "module".toList
def strDistIndexJs : List Char := "dist/index.js".toList
def strIndexMjs : List Char := "index.mjs".toList
def strStart : List Char := "start".toList
def strDev : List Char := "dev".toList
def strBuild : List Char := "build".toList
def strNodeDistIndexJs : List Char := "node dist/index.js".toList
def strNodeIndexMjs : List Char := "node index.mjs".toList
def strTsxWatchCmd : List Char := "tsx watch src/index.mts".toList
def strNodemonCmd : List Char := "nodemon index.mjs".toList
def strTscCmd : List Char := "tsc".toList

/-- The test `config.backendTemplate.includes("ts")` used throughout
scaffold.js (lines 154, 174, 178, 181, 184, 201, 295, 371, 399); the source
dereferences the field, which is present whenever a backend is generated. -/
def backendIsTs (cfg : Config) : Bool :=
  containsSub strTs (cfg.backendTemplate.getD [])

/-- The generated package.json object (spec section 3, Manifest).  Maps are
association lists in JS property-insertion order.  The JS field `type` is
spelled `pkgType`. -/
structure Manifest where
  name : List Char
  version : List Char
  description : List Char
  pkgType : List Char
  main : List Char
  scripts : List (List Char × List Char)
  dependencies : List (List Char × List Char)
  devDependencies : List (List Char × List Char)

/-- Package Manifest Builder: `createPackageJson(projectPath, config)` of
scaffold.js lines 132-189.  `projectBasename` is `path.basename(projectPath)`. -/
def createPackageJson (projectBasename : List Char) (config : Config) : Manifest :=
  let dependencies := [(strExpress, verExpress), (strCors, verCors)]
  let dependencies :=
    if strEnv ∈ config.additionalFeatures ∨ config.database ≠ some strNone then
      dependencies ++ [(strDotenv, verDotenv)]
    else dependencies
  let dependencies :=
    if config.database = some strMongodb then
      dependencies ++ [(strMongoose, verMongoose)]
    else if config.database = some strPostgresql then
      dependencies ++ [(strPg, verPg), (strBcryptjs, verBcryptjs), (strJsonwebtoken, verJsonwebtoken)]
    else dependencies
  let devDependencies := [(strNodemon, verNodemon)]
  let devDependencies :=
    if backendIsTs config then
      devDependencies ++
        [(strTypesExpress, verTypesExpress), (strTypesCors, verTypesCors),
         (strTypesNode, verTypesNode), (strTypescript, verTypescript), (strTsx, verTsx)] ++
        (if config.database = some strPostgresql then [(strTypesPg, verTypesPg)] else [])
    else devDependencies
  { name :=
      if config.projectType = strFullstack then projectBasename ++ strDashBackend
      else projectBasename,
    version := strVersion100,
    description := [],
    pkgType := strModule,
    main := if backendIsTs config then strDistIndexJs else strIndexMjs,
    scripts :=
      [(strStart, if backendIsTs config then strNodeDistIndexJs else strNodeIndexMjs),
       (strDev, if backendIsTs config then strTsxWatchCmd else strNodemonCmd)] ++
      (if backendIsTs config then [(strBuild, strTscCmd)] else []),
    dependencies := dependencies,
    devDependencies := devDependencies }

/-- Validity of a Configuration Record that generates a backend
(spec section 3 restricted to the fields the Backend Orchestrator reads). -/
def ValidBackendConfig (cfg : Config) : Prop :=
  (cfg.projectType = strFullstack ∨ cfg.projectType = strBackend) ∧
  (cfg.backendTemplate = some strExpressJs ∨ cfg.backendTemplate = some strExpressTs) ∧
  (cfg.database = some strNone ∨ cfg.database = some strMongodb ∨ cfg.database = some strPostgresql)

def strRoutes : List Char := "routes".toList
def strControllers : List Char := "controllers".toList
def strMiddleware : List Char := "middleware".toList
def strUtils : List Char := "utils".toList
def strQueries : List Char := "queries".toList
def strDb : List Char := "db".toList
def strModels : List Char := "models".toList
def strSrc : List Char := "src".toList
def strSrcSlash : List Char := "src/".toList

/-- Directory Planner: the ordered list of directory paths (relative to the
backend root) that `createBackendFolders(backendPath, config)` of scaffold.js
lines 191-220 passes to `fs.ensureDir`. -/
def createBackendFolders (config : Config) : List (List Char) :=
  let folders := [strRoutes, strControllers, strMiddleware, strUtils]
  let folders :=
    if config.database = some strPostgresql then folders ++ [strQueries, strDb]
    else if config.database = some strMongodb then folders ++ [strModels, strDb]
    else folders
  if backendIsTs config then
    (folders ++ [strSrc]).map (fun folder => if folder = strSrc then folder else strSrcSlash ++ folder)
  else folders

/-- Parent directory of a relative path: the segment before the last slash,
`Option.none` when the path has no slash (its parent is the target root). -/
def parentDir (p : List Char) : Option (List Char) :=
  match p.reverse.dropWhile (fun c => !(c == '/')) with
  | [] => Option.none
  | _ :: rest => some rest.reverse

/-- Auxiliary scan: every path whose parent is not the target root must have
that parent among the previously seen paths. -/
def parentsPrecedeAux (seen : List (List Char)) : List (List Char) → Bool
  | [] => true
  | p :: rest =>
    (match parentDir p with
     | Option.none => true
     | some par => seen.contains par) && parentsPrecedeAux (p :: seen) rest

/-- Parents precede children in the ordered path sequence. -/
def parentsPrecedeB (l : List (List Char)) : Bool :=
  parentsPrecedeAux [] l

/-- Modelled from the spec wording of the Directory Planner rule, amended to
the database-specific folders the source actually pushes: base roles plus
models and db for mongodb, plus queries and db for postgresql. -/
def plannedRoles (cfg : Config) : List (List Char) :=
  [strRoutes, strControllers, strMiddleware, strUtils] ++
    (if cfg.database = some strPostgresql then [strQueries, strDb]
     else if cfg.database = some strMongodb then [strModels, strDb]
     else [])

/-- Spec-side planned path list: role paths nested under the fixed source
root for TypeScript (the source root itself is created last), flat
otherwise. -/
def plannedPaths (cfg : Config) : List (List Char) :=
  if backendIsTs cfg then (plannedRoles cfg).map (fun r => strSrcSlash ++ r) ++ [strSrc]
  else plannedRoles cfg

def envBaseBlock : List Char :=
  "# Environment Variables\nNODE_ENV=development\nPORT=5000\n".toList
def envPgBlock : List Char :=
  "\n# PostgreSQL Configuration\nDB_HOST=localhost\nDB_PORT=5432\nDB_NAME=myapp\nDB_USER=postgres\nDB_PASSWORD=password\n".toList
def envMongoBlock : List Char :=
  "\n# MongoDB Configuration\nMONGODB_URI=mongodb+srv://<username>:<password>@cluster0.qct1l3d.mongodb.net/\nDB_NAME=myapp\n".toList
def envAuthBlock : List Char :=
  "\n# Authentication\nJWT_SECRET=your-super-secret-jwt-key\n".toList
def strBackendEnvExample : List Char := "backend/.env.example".toList
def strEnvExample : List Char := ".env.example".toList

/-- Features Orchestrator, env part: the (path, content) of the
environment-variable template written by `setupAdditionalFeatures` of
scaffold.js lines 445-496, `Option.none` when its guard is false.  Paths are
relative to the project root. -/
def setupAdditionalFeaturesEnv (config : Config) : Option (List Char × List Char) :=
  if strEnv ∈ config.additionalFeatures ∨ config.database ≠ some strNone then
    let envContent := envBaseBlock
    let envContent :=
      if config.database = some strPostgresql then envContent ++ envPgBlock
      else if config.database = some strMongodb then envContent ++ envMongoBlock
      else envContent
    let envContent :=
      if strAuth ∈ config.additionalFeatures then envContent ++ envAuthBlock
      else envContent
    let envPath :=
      if config.projectType = strFullstack then strBackendEnvExample
      else strEnvExample
    some (envPath, envContent)
  else Option.none

/-- The env-file write as driven by the Scaffold Coordinator: `scaffold` of
scaffold.js lines 30-32 runs the features stage only when
`config.additionalFeatures.length > 0`. -/
def scaffoldEnvFile (config : Config) : Option (List Char × List Char) :=
  if config.additionalFeatures.length > 0 then setupAdditionalFeaturesEnv config
  else Option.none

/-- Spec-side env template path for the amended claim: backend/.env.example
for fullstack projects, the project root otherwise. -/
def envExamplePath (cfg : Config) : List Char :=
  if cfg.projectType = strFullstack then strBackendEnvExample else strEnvExample

/-- Spec-side env template content for the amended claim: the concatenation
of the base block, the matching database block, and the auth block, each
selected independently and emitted once. -/
def envTemplateContent (cfg : Config) : List Char :=
  envBaseBlock ++
    (if cfg.database = some strPostgresql then envPgBlock
     else if cfg.database = some strMongodb then envMongoBlock
     else []) ++
    (if strAuth ∈ cfg.additionalFeatures then envAuthBlock else [])

def strTailwindMarker : List Char := "@import \"tailwindcss\"".toList
def strTailwindCssImport : List Char := "@import \"tailwindcss\";\n\n".toList
def strTailwindVitePkg : List Char := "@tailwindcss/vite".toList
def strTailwindImportLine : List Char :=
  "\nimport tailwindcss from \x27@tailwindcss/vite\x27".toList
def strPluginsColon : List Char := "plugins:".toList
def strPluginsReplacement : List Char := "plugins: [\n    tailwindcss(),".toList
def strImportKw : List Char := "import".toList
def strFromKw : List Char := "from".toList
def strVite : List Char := "vite".toList

/-- JavaScript regex whitespace class (the ASCII part, which is all the
scaffolder's inputs use). -/
def isJsSpace (c : Char) : Bool :=
  (c == ' ') || (c == '\t') || (c == '\n') || (c == '\r') || (c == '\x0b') || (c == '\x0c')

def lbraceChar : Char := Char.ofNat 123
def rbraceChar : Char := Char.ofNat 125
def aposChar : Char := Char.ofNat 39

/-- Consume a literal token at the head of the input. -/
def eatToken (pat l : List Char) : Option (List Char) :=
  if pat.isPrefixOf l then some (l.drop pat.length) else Option.none

/-- Consume one or more whitespace characters (a non-empty greedy whitespace
run; the tokens that follow it in the patterns below never start with
whitespace, so greedy matching never backtracks into it). -/
def eatSpaces1 : List Char → Option (List Char)
  | [] => Option.none
  | c :: rest => if isJsSpace c then some (rest.dropWhile isJsSpace) else Option.none

/-- Consume one expected character. -/
def eatChar (target : Char) : List Char → Option (List Char)
  | [] => Option.none
  | c :: rest => if c == target then some rest else Option.none

/-- Consume one or more characters other than a closing brace (greedy; the
pattern continues with the literal closing brace, so this is equivalent to
stopping at the first closing brace). -/
def eatNonRBrace1 : List Char → Option (List Char)
  | [] => Option.none
  | c :: rest =>
    if c == rbraceChar then Option.none
    else some (rest.dropWhile (fun d => !(d == rbraceChar)))

/-- Consume one quote character, single or double. -/
def eatQuote : List Char → Option (List Char)
  | [] => Option.none
  | c :: rest => if c == aposChar || c == '"' then some rest else Option.none

/-- Match, at the head of `l`, the regex of scaffold.js line 253: the word
import, whitespace, an open brace, one or more non-close-brace characters, a
close brace, whitespace, the word from, whitespace, and a quoted vite.
Greedy matching of this pattern is deterministic, so the matcher is a
straight-line token eater; returns the length of the match. -/
def matchViteImportAt (l : List Char) : Option Nat :=
  (((((((((((some l).bind (eatToken strImportKw)).bind eatSpaces1).bind
    (eatChar lbraceChar)).bind eatNonRBrace1).bind (eatChar rbraceChar)).bind
    eatSpaces1).bind (eatToken strFromKw)).bind eatSpaces1).bind eatQuote).bind
    (eatToken strVite)).bind eatQuote |>.map (fun rest => l.length - rest.length)

/-- Match, at the head of `l`, the regex of scaffold.js line 265: the token
plugins-colon, optional whitespace, an opening square bracket; returns the
length of the match. -/
def matchPluginsAt (l : List Char) : Option Nat :=
  ((((some l).bind (eatToken strPluginsColon)).map (List.dropWhile isJsSpace)).bind
    (eatChar '[')) |>.map (fun rest => l.length - rest.length)

/-- Leftmost match of a deterministic matcher: scan start positions left to
right; returns (start, length). -/
def findMatchFrom (matchAt : List Char → Option Nat) : List Char → Option (Nat × Nat)
  | [] =>
    match matchAt [] with
    | some n => some (0, n)
    | Option.none => Option.none
  | c :: rest =>
    match matchAt (c :: rest) with
    | some n => some (0, n)
    | Option.none =>
      match findMatchFrom matchAt rest with
      | some (s, n) => some (s + 1, n)
      | Option.none => Option.none

/-- Styling Orchestrator, build-tool configuration rewrite: the pure content
transform of `setupTailwind` on the vite config file (scaffold.js lines
247-271).  When the plugin package name is absent, the matched vite import
statement (if any) is kept and the tailwindcss import line appended after it,
then the first plugins-array opener is replaced by one that registers the
plugin.  A `replace` with the matched text as the literal needle rewrites at
the leftmost match position, which is how it is modelled here. -/
def rewriteViteConfig (v : List Char) : List Char :=
  if containsSub strTailwindVitePkg v = true then v
  else
    let v1 :=
      match findMatchFrom matchViteImportAt v with
      | some (s, n) =>
        (v.take s) ++ ((v.drop s).take n) ++ strTailwindImportLine ++ (v.drop (s + n))
      | Option.none => v
    match findMatchFrom matchPluginsAt v1 with
    | some (s, n) => (v1.take s) ++ strPluginsReplacement ++ (v1.drop (s + n))
    | Option.none => v1

/-- Styling Orchestrator, stylesheet entry rewrite: the pure content
transform of `setupTailwind` on src/index.css (scaffold.js lines 274-285);
prepends the tailwind import unless the marker is already present. -/
def rewriteCss (css : List Char) : List Char :=
  if containsSub strTailwindMarker css = true then css
  else strTailwindCssImport ++ css

def strNpxCreateNext : List Char := "npx create-next-app@latest ".toList
def strCreateNextApp : List Char := "npx create-next-app@latest".toList
def strNextTail : List Char :=
  " --eslint --app --no-src-dir --import-alias \"@/*\"".toList
def strTsFlag : List Char := "--ts".toList
def strJsFlag : List Char := "--js".toList
def strTailwindFlag : List Char := "--tailwind".toList
def strNoTailwindFlag : List Char := "--no-tailwind".toList
def strSpace : List Char := " ".toList
def strNpmCreateVite : List Char := "npm create vite@latest ".toList
def strCreateVite : List Char := "npm create vite@latest".toList
def strViteTemplateMid : List Char := " -- --template ".toList

/-- The test `config.frontendFramework.startsWith("nextjs")` of scaffold.js
line 52; the field is present whenever a frontend is generated. -/
def isNextJS (cfg : Config) : Bool :=
  strNextjs.isPrefixOf (cfg.frontendFramework.getD [])

/-- The observable outcome of frontend setup: the external scaffolding
commands issued and whether the Styling Orchestrator runs in-process. -/
structure FrontendPlan where
  commands : List (List Char)
  tailwindInProcess : Bool

/-- Frontend Orchestrator: `setupFrontend(projectPath, config)` of
scaffold.js lines 43-90, reduced to its externally visible plan.
`projectName` is the basename of the project path; for fullstack projects
the target basename is the literal frontend directory. -/
def setupFrontendPlan (projectName : List Char) (config : Config) : FrontendPlan :=
  let frontendBasename :=
    if config.projectType = strFullstack then strFrontend else projectName
  if isNextJS config then
    let useTypeScript := config.frontendFramework = some strNextjsTs
    let tailwindFlag := if config.includeTailwind then strTailwindFlag else strNoTailwindFlag
    let tsFlag := if useTypeScript then strTsFlag else strJsFlag
    { commands :=
        [strNpxCreateNext ++ frontendBasename ++ strSpace ++ tsFlag ++ strSpace ++
          tailwindFlag ++ strNextTail],
      tailwindInProcess := false }
  else
    { commands :=
        [strNpmCreateVite ++ frontendBasename ++ strViteTemplateMid ++
          config.frontendFramework.getD []],
      tailwindInProcess := config.includeTailwind }

/-- Validity of a Configuration Record that generates a frontend
(spec section 3 restricted to the fields the Frontend Orchestrator reads). -/
def ValidFrontendConfig (cfg : Config) : Prop :=
  (cfg.projectType = strFullstack ∨ cfg.projectType = strFrontend) ∧
  (cfg.frontendFramework = some strReact ∨ cfg.frontendFramework = some strReactTs ∨
   cfg.frontendFramework = some strNextjs ∨ cfg.frontendFramework = some strNextjsTs)

def strES2020 : List Char := "ES2020".toList
def strNodeNext : List Char := "NodeNext".toList
def strOutDirDist : List Char := "./dist".toList
def strRootDirSrc : List Char := "./src".toList
def strTsconfigJson : List Char := "tsconfig.json".toList
def strSrcGlob : List Char := "src/**/*".toList
def strNodeModules : List Char := "node_modules".toList

/-- Compiler options of the generated type-checking configuration
(scaffold.js lines 348-359). -/
structure TsCompilerOptions where
  target : List Char
  module : List Char
  moduleResolution : List Char
  outDir : List Char
  rootDir : List Char
  strict : Bool
  esModuleInterop : Bool
  skipLibCheck : Bool
  forceConsistentCasingInFileNames : Bool

/-- The generated tsconfig.json object (scaffold.js lines 348-362); the JS
fields `include` and `exclude` are spelled `includeGlobs` and
`excludeGlobs`. -/
structure TsConfigFile where
  compilerOptions : TsCompilerOptions
  includeGlobs : List (List Char)
  excludeGlobs : List (List Char)

/-- The type-checking configuration write performed at the tail of
`createServerFile` (scaffold.js lines 346-367): for TypeScript backends the
pair of the path relative to the backend root and the written object,
`Option.none` otherwise. -/
def createServerFileTsconfig (config : Config) : Option (List Char × TsConfigFile) :=
  if backendIsTs config then
    some (strTsconfigJson,
      { compilerOptions :=
          { target := strES2020,
            module := strNodeNext,
            moduleResolution := strNodeNext,
            outDir := strOutDirDist,
            rootDir := strRootDirSrc,
            strict := true,
            esModuleInterop := true,
            skipLibCheck := true,
            forceConsistentCasingInFileNames := true },
        includeGlobs := [strSrcGlob],
        excludeGlobs := [strNodeModules] })
  else Option.none

def sampleName : List Char := "my-app".toList

/-- Backend-only record: express-js, mongodb, env and auth features. -/
def cfgEnvMongo : Config :=
  { projectType := strBackend, frontendFramework := Option.none,
    includeTailwind := false, backendTemplate := some strExpressJs,
    database := some strMongodb, additionalFeatures := [strEnv, strAuth],
    installDependencies := false }

/-- Backend-only record: express-js, mongodb, no additional features. -/
def cfgMongoNoFeat : Config :=
  { projectType := strBackend, frontendFramework := Option.none,
    includeTailwind := false, backendTemplate := some strExpressJs,
    database := some strMongodb, additionalFeatures := [],
    installDependencies := false }

/-- Backend-only record: express-ts, postgresql, env feature. -/
def cfgTsPg : Config :=
  { projectType := strBackend, frontendFramework := Option.none,
    includeTailwind := false, backendTemplate := some strExpressTs,
    database := some strPostgresql, additionalFeatures := [strEnv],
    installDependencies := false }

/-- Backend-only record: express-ts, no database, no features. -/
def cfgTsNone : Config :=
  { projectType := strBackend, frontendFramework := Option.none,
    includeTailwind := false, backendTemplate := some strExpressTs,
    database := some strNone, additionalFeatures := [],
    installDependencies := false }

/-- Frontend-only record: react with tailwind, auth feature requested. -/
def cfgFrontReact : Config :=
  { projectType := strFrontend, frontendFramework := some strReact,
    includeTailwind := true, backendTemplate := Option.none,
    database := Option.none, additionalFeatures := [strAuth],
    installDependencies := false }

/-- Fullstack record: nextjs-ts frontend with tailwind, express-ts backend. -/
def cfgNextTs : Config :=
  { projectType := strFullstack, frontendFramework := some strNextjsTs,
    includeTailwind := true, backendTemplate := some strExpressTs,
    database := some strNone, additionalFeatures := [],
    installDependencies := false }

/-- A build-tool configuration with a plugins array but no import clause the
line-253 regex recognizes; the first rewrite can then never introduce the
plugin package name. -/
def viteConfigNoImport : List Char :=
  "export default \x7b plugins: [] \x7d".toList

/-- A build-tool configuration of the shape the Vite scaffolder emits. -/
def viteConfigSample : List Char :=
  "import \x7b defineConfig \x7d from \"vite\"\nimport react from \"@vitejs/plugin-react\"\n\nexport default defineConfig(\x7b\n  plugins: [react()],\n\x7d)\n".toList

/-- A stylesheet entry file without the tailwind import marker. -/
def cssSample : List Char :=
  "body \x7b margin: 0; \x7d\n".toList

/-- The tailwind import marker without its leading at-sign. -/
def strMarkerTail : List Char := "import \"tailwindcss\"".toList

/-- The trailer that the prepended stylesheet import adds after the marker. -/
def strSemiNlNl : List Char := ";\n\n".toList

/- ------------------------------------------------------------------ -/
/- Theorems.                                                           -/
/- ------------------------------------------------------------------ -/

theorem containsSub_nil (l : List Char) : containsSub [] l = true := by
  cases l <;> simp [containsSub, List.isPrefixOf]

theorem isPrefixOf_append_left (p l r : List Char) (h : p.isPrefixOf l = true) :
    p.isPrefixOf (l ++ r) = true := by
  rw [List.isPrefixOf_iff_prefix] at h ⊢
  exact h.trans (List.prefix_append l r)

theorem isPrefixOf_self_append (p r : List Char) : p.isPrefixOf (p ++ r) = true := by
  rw [List.isPrefixOf_iff_prefix]
  exact List.prefix_append p r

theorem containsSub_cons (p : List Char) (c : Char) (rest : List Char) :
    containsSub p (c :: rest) = (p.isPrefixOf (c :: rest) || containsSub p rest) :=
  rfl

theorem containsSub_of_isPrefixOf (p l : List Char) (hp : p ≠ [])
    (h : p.isPrefixOf l = true) : containsSub p l = true := by
  cases l with
  | nil =>
    cases p with
    | nil => exact absurd rfl hp
    | cons a as => simp [List.isPrefixOf] at h
  | cons c rest =>
    rw [containsSub_cons, h, Bool.true_or]

theorem containsSub_append_right (p a b : List Char) (h : containsSub p b = true) :
    containsSub p (a ++ b) = true := by
  induction a with
  | nil => simpa using h
  | cons x xs ih =>
    rw [List.cons_append, containsSub_cons, ih, Bool.or_true]

theorem containsSub_append_left (p a b : List Char) (h : containsSub p a = true) :
    containsSub p (a ++ b) = true := by
  induction a with
  | nil =>
    cases p with
    | nil => exact containsSub_nil b
    | cons q qs => simp [containsSub, List.isEmpty] at h
  | cons x xs ih =>
    rw [List.cons_append, containsSub_cons]
    rw [containsSub_cons] at h
    rcases Bool.or_eq_true_iff.mp h with h' | h'
    · have hput : p.isPrefixOf (x :: (xs ++ b)) = true :=
        isPrefixOf_append_left p (x :: xs) b h'
      rw [hput, Bool.true_or]
    · rw [ih h', Bool.or_true]

theorem countOccs_cons (p : List Char) (c : Char) (rest : List Char) :
    countOccs p (c :: rest) =
      (if p.isPrefixOf (c :: rest) = true then 1 else 0) + countOccs p rest :=
  rfl

theorem countOccs_pos_iff (a : Char) (p l : List Char) :
    0 < countOccs (a :: p) l ↔ containsSub (a :: p) l = true := by
  induction l with
  | nil => simp [countOccs, containsSub, List.isEmpty]
  | cons c rest ih =>
    rw [countOccs_cons, containsSub_cons]
    by_cases hpre : (a :: p).isPrefixOf (c :: rest) = true
    · rw [if_pos hpre, hpre, Bool.true_or]
      constructor
      · intro _; rfl
      · intro _; omega
    · have hb : (a :: p).isPrefixOf (c :: rest) = false :=
        Bool.eq_false_iff.mpr hpre
      rw [if_neg hpre, hb, Bool.false_or, Nat.zero_add]
      exact ih

theorem countOccs_append_of_ne (a : Char) (p : List Char) :
    ∀ l r : List Char, (∀ ch ∈ l, ch ≠ a) →
      countOccs (a :: p) (l ++ r) = countOccs (a :: p) r := by
  intro l
  induction l with
  | nil => intro r _; rfl
  | cons x xs ih =>
    intro r h
    have hx : (a == x) = false := beq_eq_false_iff_ne.mpr (Ne.symm (h x (by simp)))
    have hxs : ∀ ch ∈ xs, ch ≠ a := fun ch hch => h ch (by simp [hch])
    have hpre : (a :: p).isPrefixOf (x :: (xs ++ r)) = false := by
      show (a == x && p.isPrefixOf (xs ++ r)) = false
      rw [hx, Bool.false_and]
    rw [List.cons_append, countOccs_cons, hpre]
    simp [ih r hxs]

theorem countOccs_self_append (a : Char) (p r : List Char) (h : ∀ ch ∈ p, ch ≠ a) :
    countOccs (a :: p) ((a :: p) ++ r) = 1 + countOccs (a :: p) r := by
  have h1 : (a :: p).isPrefixOf (a :: (p ++ r)) = true := isPrefixOf_self_append (a :: p) r
  show (if (a :: p).isPrefixOf (a :: (p ++ r)) = true then 1 else 0) +
      countOccs (a :: p) (p ++ r) = 1 + countOccs (a :: p) r
  rw [if_pos h1, countOccs_append_of_ne a p p r h]

theorem rewriteCss_eq_self (x : List Char) (h : containsSub strTailwindMarker x = true) :
    rewriteCss x = x := by
  unfold rewriteCss
  rw [if_pos h]

theorem rewriteViteConfig_eq_self (x : List Char)
    (h : containsSub strTailwindVitePkg x = true) : rewriteViteConfig x = x := by
  unfold rewriteViteConfig
  rw [if_pos h]

theorem rewriteCss_contains (c : List Char) :
    containsSub strTailwindMarker (rewriteCss c) = true := by
  by_cases h : containsSub strTailwindMarker c = true
  · rw [rewriteCss_eq_self c h]; exact h
  · have hbody : rewriteCss c = strTailwindCssImport ++ c := by
      unfold rewriteCss; rw [if_neg h]
    rw [hbody]
    exact containsSub_append_left _ _ _ (by decide)

theorem countOccs_marker_pos_iff (l : List Char) :
    0 < countOccs strTailwindMarker l ↔ containsSub strTailwindMarker l = true := by
  rw [show strTailwindMarker = '@' :: strMarkerTail from by decide]
  exact countOccs_pos_iff '@' strMarkerTail l

theorem countOccs_rewriteCss (c : List Char) :
    countOccs strTailwindMarker (rewriteCss c) = max 1 (countOccs strTailwindMarker c) := by
  have hm : strTailwindMarker = '@' :: strMarkerTail := by decide
  have him : strTailwindCssImport = ('@' :: strMarkerTail) ++ strSemiNlNl := by decide
  by_cases h : containsSub strTailwindMarker c = true
  · rw [rewriteCss_eq_self c h]
    exact (max_eq_right ((countOccs_marker_pos_iff c).mpr h)).symm
  · have h0 : countOccs strTailwindMarker c = 0 := by
      rcases Nat.eq_zero_or_pos (countOccs strTailwindMarker c) with h' | h'
      · exact h'
      · exact absurd ((countOccs_marker_pos_iff c).mp h') h
    have hbody : rewriteCss c = strTailwindCssImport ++ c := by
      unfold rewriteCss; rw [if_neg h]
    rw [hbody, him, hm, List.append_assoc]
    rw [countOccs_self_append '@' strMarkerTail (strSemiNlNl ++ c) (by decide)]
    rw [countOccs_append_of_ne '@' strMarkerTail strSemiNlNl c (by decide)]
    rw [← hm, h0]
    decide

set_option maxRecDepth 1000000 in
/-- C7 counterexample: the Styling Orchestrator's rewrite of the build-tool
configuration is not idempotent on every input.  On a configuration that has
a plugins array but no import clause the scaffolder's regex recognizes, the
first rewrite never introduces the plugin package marker, so a second run
registers the plugin again. -/
theorem C7_counterexample :
    rewriteViteConfig (rewriteViteConfig viteConfigNoImport) ≠
      rewriteViteConfig viteConfigNoImport := by
  decide

/-- C7 amended: the stylesheet rewrite is idempotent on every input; the
build-tool configuration rewrite is idempotent on every input whose first
rewrite leaves the plugin package marker present (in particular on any input
already containing it or containing a recognizable vite import clause); and
the rewritten stylesheet contains the import marker exactly once when the
input contained it at most once, i.e. the occurrence count becomes
max 1 (original count). -/
theorem C7_amended (v c : List Char)
    (h : containsSub strTailwindVitePkg (rewriteViteConfig v) = true) :
    rewriteViteConfig (rewriteViteConfig v) = rewriteViteConfig v ∧
    rewriteCss (rewriteCss c) = rewriteCss c ∧
    countOccs strTailwindMarker (rewriteCss c) = max 1 (countOccs strTailwindMarker c) :=
  ⟨rewriteViteConfig_eq_self _ h,
   rewriteCss_eq_self _ (rewriteCss_contains c),
   countOccs_rewriteCss c⟩

set_option maxRecDepth 1000000 in
/-- C7 amended, witnessed on a vite configuration of the shape the external
Vite scaffolder produces and a plain stylesheet. -/
theorem C7_amended_witness :
    rewriteViteConfig (rewriteViteConfig viteConfigSample) = rewriteViteConfig viteConfigSample ∧
    rewriteCss (rewriteCss cssSample) = rewriteCss cssSample ∧
    countOccs strTailwindMarker (rewriteCss cssSample) =
      max 1 (countOccs strTailwindMarker cssSample) :=
  C7_amended viteConfigSample cssSample (by decide)

/-- C1: for every valid Configuration Record that generates a backend, the
manifest produced by the Package Manifest Builder has no package name in
both dependencies and devDependencies, and every scripts value is a
non-empty string. -/
theorem C1_manifest_disjoint_and_scripts (n : List Char) (cfg : Config)
    (h : ValidBackendConfig cfg) :
    (∀ k ∈ keys (createPackageJson n cfg).dependencies,
        k ∉ keys (createPackageJson n cfg).devDependencies) ∧
    (∀ s ∈ (createPackageJson n cfg).scripts, s.2 ≠ []) := by
  obtain ⟨hpt, hbt, hdb⟩ := h
  rcases hbt with hbt | hbt <;> rcases hdb with hdb | hdb | hdb <;>
    by_cases hE : strEnv ∈ cfg.additionalFeatures <;>
    simp only [createPackageJson, backendIsTs, Option.getD_some, hbt, hdb, hE] <;>
    decide

/-- C1 witness at a concrete backend configuration. -/
theorem C1_manifest_disjoint_and_scripts_witness :
    (∀ k ∈ keys (createPackageJson sampleName cfgEnvMongo).dependencies,
        k ∉ keys (createPackageJson sampleName cfgEnvMongo).devDependencies) ∧
    (∀ s ∈ (createPackageJson sampleName cfgEnvMongo).scripts, s.2 ≠ []) :=
  C1_manifest_disjoint_and_scripts sampleName cfgEnvMongo
    ⟨Or.inr rfl, Or.inl rfl, Or.inr (Or.inl rfl)⟩

/-- C5: for the TypeScript backend variant the devDependencies include the
compiler, the matching type declaration packages (the PostgreSQL driver
types exactly when the database is postgresql), and the TS-aware runner;
for the non-TypeScript variant the devDependencies are exactly the
file-watcher-based dev runner. -/
theorem C5_devDependencies (n : List Char) (cfg : Config)
    (h : ValidBackendConfig cfg) :
    (cfg.backendTemplate = some strExpressTs →
      strTypescript ∈ keys (createPackageJson n cfg).devDependencies ∧
      strTypesExpress ∈ keys (createPackageJson n cfg).devDependencies ∧
      strTypesCors ∈ keys (createPackageJson n cfg).devDependencies ∧
      strTypesNode ∈ keys (createPackageJson n cfg).devDependencies ∧
      strTsx ∈ keys (createPackageJson n cfg).devDependencies ∧
      (strTypesPg ∈ keys (createPackageJson n cfg).devDependencies ↔
        cfg.database = some strPostgresql)) ∧
    (cfg.backendTemplate = some strExpressJs →
      keys (createPackageJson n cfg).devDependencies = [strNodemon]) := by
  obtain ⟨hpt, hbt, hdb⟩ := h
  rcases hbt with hbt | hbt <;> rcases hdb with hdb | hdb | hdb <;>
    simp only [createPackageJson, backendIsTs, Option.getD_some, hbt, hdb] <;>
    decide

/-- C5 witness at a concrete TypeScript-plus-postgresql configuration. -/
theorem C5_devDependencies_witness :
    (cfgTsPg.backendTemplate = some strExpressTs →
      strTypescript ∈ keys (createPackageJson sampleName cfgTsPg).devDependencies ∧
      strTypesExpress ∈ keys (createPackageJson sampleName cfgTsPg).devDependencies ∧
      strTypesCors ∈ keys (createPackageJson sampleName cfgTsPg).devDependencies ∧
      strTypesNode ∈ keys (createPackageJson sampleName cfgTsPg).devDependencies ∧
      strTsx ∈ keys (createPackageJson sampleName cfgTsPg).devDependencies ∧
      (strTypesPg ∈ keys (createPackageJson sampleName cfgTsPg).devDependencies ↔
        cfgTsPg.database = some strPostgresql)) ∧
    (cfgTsPg.backendTemplate = some strExpressJs →
      keys (createPackageJson sampleName cfgTsPg).devDependencies = [strNodemon]) :=
  C5_devDependencies sampleName cfgTsPg
    ⟨Or.inr rfl, Or.inr rfl, Or.inr (Or.inr rfl)⟩

/-- C6: the scripts map contains a build entry exactly for the TypeScript
backend variant. -/
theorem C6_build_script (n : List Char) (cfg : Config)
    (h : ValidBackendConfig cfg) :
    (cfg.backendTemplate = some strExpressTs →
      strBuild ∈ keys (createPackageJson n cfg).scripts) ∧
    (cfg.backendTemplate = some strExpressJs →
      strBuild ∉ keys (createPackageJson n cfg).scripts) := by
  obtain ⟨hpt, hbt, hdb⟩ := h
  rcases hbt with hbt | hbt <;>
    simp only [createPackageJson, backendIsTs, Option.getD_some, hbt] <;>
    decide

/-- C6 witness at a concrete TypeScript configuration. -/
theorem C6_build_script_witness :
    (cfgTsNone.backendTemplate = some strExpressTs →
      strBuild ∈ keys (createPackageJson sampleName cfgTsNone).scripts) ∧
    (cfgTsNone.backendTemplate = some strExpressJs →
      strBuild ∉ keys (createPackageJson sampleName cfgTsNone).scripts) :=
  C6_build_script sampleName cfgTsNone
    ⟨Or.inr rfl, Or.inr rfl, Or.inl rfl⟩

/-- C2 counterexample: for a mongodb backend the Directory Planner's role
set is not exactly base plus models: the source also pushes db. -/
theorem C2_counterexample :
    ¬ (∀ d, d ∈ createBackendFolders cfgMongoNoFeat ↔
        (d = strRoutes ∨ d = strControllers ∨ d = strMiddleware ∨
         d = strUtils ∨ d = strModels)) := by
  intro h
  have hd := (h strDb).mp (by decide)
  exact absurd hd (by decide)

/-- C2 amended: the planned directories are the base roles plus models and
db for mongodb, plus queries and db for postgresql; for the TypeScript
variant every role path is nested under the fixed source root (which is
itself created), otherwise all paths are at the backend root. -/
theorem C2_amended (cfg : Config) (h : ValidBackendConfig cfg) :
    createBackendFolders cfg = plannedPaths cfg := by
  obtain ⟨hpt, hbt, hdb⟩ := h
  rcases hbt with hbt | hbt <;> rcases hdb with hdb | hdb | hdb <;>
    simp only [createBackendFolders, plannedPaths, plannedRoles, backendIsTs,
      Option.getD_some, hbt, hdb] <;>
    decide

/-- C2 amended, witnessed at a concrete mongodb backend configuration. -/
theorem C2_amended_witness :
    createBackendFolders cfgMongoNoFeat = plannedPaths cfgMongoNoFeat :=
  C2_amended cfgMongoNoFeat ⟨Or.inr rfl, Or.inl rfl, Or.inr (Or.inl rfl)⟩

/-- C3 counterexample: for a valid TypeScript backend configuration the
planned sequence does not satisfy parents-precede-children: the source root
is appended after the role paths nested under it. -/
theorem C3_counterexample :
    ValidBackendConfig cfgTsNone ∧
    parentsPrecedeB (createBackendFolders cfgTsNone) = false :=
  ⟨⟨Or.inr rfl, Or.inr rfl, Or.inl rfl⟩, by decide⟩

/-- C3 amended: for the non-TypeScript variant every planned path is at the
target root, so parents precede children; for the TypeScript variant every
planned path is either the source root itself (which appears in the
sequence, last) or a direct child of the source root, and the recursive
directory creation the source uses makes the order immaterial. -/
theorem C3_amended (cfg : Config) (h : ValidBackendConfig cfg) :
    (backendIsTs cfg = false → parentsPrecedeB (createBackendFolders cfg) = true) ∧
    (backendIsTs cfg = true →
      (createBackendFolders cfg).getLast? = some strSrc ∧
      strSrc ∉ (createBackendFolders cfg).dropLast ∧
      ∀ p ∈ createBackendFolders cfg,
        p = strSrc ∨ parentDir p = some strSrc) := by
  obtain ⟨hpt, hbt, hdb⟩ := h
  rcases hbt with hbt | hbt <;> rcases hdb with hdb | hdb | hdb <;>
    simp only [createBackendFolders, backendIsTs, Option.getD_some, hbt, hdb] <;>
    decide

/-- C3 amended, witnessed at a concrete TypeScript-plus-postgresql backend
configuration. -/
theorem C3_amended_witness :
    (backendIsTs cfgTsPg = false → parentsPrecedeB (createBackendFolders cfgTsPg) = true) ∧
    (backendIsTs cfgTsPg = true →
      (createBackendFolders cfgTsPg).getLast? = some strSrc ∧
      strSrc ∉ (createBackendFolders cfgTsPg).dropLast ∧
      ∀ p ∈ createBackendFolders cfgTsPg,
        p = strSrc ∨ parentDir p = some strSrc) :=
  C3_amended cfgTsPg ⟨Or.inr rfl, Or.inr rfl, Or.inr (Or.inr rfl)⟩

theorem strNone_ne_mongodb : ¬ (strNone = strMongodb) := by decide

theorem strNone_ne_postgresql : ¬ (strNone = strPostgresql) := by decide

theorem strMongodb_ne_none : ¬ (strMongodb = strNone) := by decide

theorem strMongodb_ne_postgresql : ¬ (strMongodb = strPostgresql) := by decide

theorem strPostgresql_ne_none : ¬ (strPostgresql = strNone) := by decide

theorem strPostgresql_ne_mongodb : ¬ (strPostgresql = strMongodb) := by decide

theorem strBackend_ne_fullstack : ¬ (strBackend = strFullstack) := by decide

theorem strFrontend_ne_fullstack : ¬ (strFrontend = strFullstack) := by decide

/-- C4 counterexample: a backend configuration with a mongodb database and
no additional features.  The claimed condition (env requested or database
not none) holds, but no environment-variable template file is written,
because the coordinator runs the features stage only when the feature list
is non-empty. -/
theorem C4_counterexample :
    ¬ ((scaffoldEnvFile cfgMongoNoFeat ≠ Option.none) ↔
        (strEnv ∈ cfgMongoNoFeat.additionalFeatures ∨
         cfgMongoNoFeat.database ≠ some strNone)) := by
  decide

/-- C4 amended: the environment-variable template file is written iff the
additional-features set is non-empty and (the env feature is requested or
the database is not none); it is placed at backend/.env.example for
fullstack projects and at the project root otherwise, and its content is
the base block followed by the matching database block and by the auth
block exactly when selected, each emitted once. -/
theorem C4_amended (cfg : Config) (h : ValidBackendConfig cfg) :
    scaffoldEnvFile cfg =
      if cfg.additionalFeatures ≠ [] ∧
          (strEnv ∈ cfg.additionalFeatures ∨ cfg.database ≠ some strNone) then
        some (envExamplePath cfg, envTemplateContent cfg)
      else Option.none := by
  obtain ⟨hpt, hbt, hdb⟩ := h
  by_cases hF : cfg.additionalFeatures = []
  · have hlen : ¬ cfg.additionalFeatures.length > 0 := by simp [hF]
    unfold scaffoldEnvFile
    rw [if_neg hlen, if_neg (fun hc => hc.1 hF)]
  · have hlen : cfg.additionalFeatures.length > 0 := by
      cases hx : cfg.additionalFeatures with
      | nil => exact absurd hx hF
      | cons a as => simp
    unfold scaffoldEnvFile
    rw [if_pos hlen]
    rcases hdb with hdb | hdb | hdb <;> rcases hpt with hpt | hpt <;>
      by_cases hE : strEnv ∈ cfg.additionalFeatures <;>
      by_cases hA : strAuth ∈ cfg.additionalFeatures <;>
      simp [setupAdditionalFeaturesEnv, envExamplePath, envTemplateContent,
        hdb, hpt, hE, hA, hF, strNone_ne_mongodb, strNone_ne_postgresql,
        strMongodb_ne_none, strMongodb_ne_postgresql, strPostgresql_ne_none,
        strPostgresql_ne_mongodb, strBackend_ne_fullstack]

/-- C4 amended, witnessed at a concrete mongodb backend configuration with
the env and auth features requested. -/
theorem C4_amended_witness :
    scaffoldEnvFile cfgEnvMongo =
      if cfgEnvMongo.additionalFeatures ≠ [] ∧
          (strEnv ∈ cfgEnvMongo.additionalFeatures ∨
           cfgEnvMongo.database ≠ some strNone) then
        some (envExamplePath cfgEnvMongo, envTemplateContent cfgEnvMongo)
      else Option.none :=
  C4_amended cfgEnvMongo ⟨Or.inr rfl, Or.inl rfl, Or.inr (Or.inl rfl)⟩

/-- C10: a frontend-only Configuration Record (database absent) with a
non-empty additional-features set still runs the features stage; the absent
database field compares unequal to none, so a backend-style
environment-variable template (base block, plus the auth block when auth is
requested) is written at the project root. -/
theorem C10_frontend_env_file (cfg : Config) (h1 : cfg.projectType = strFrontend)
    (h2 : cfg.database = Option.none) (h3 : cfg.additionalFeatures ≠ []) :
    scaffoldEnvFile cfg =
      some (strEnvExample,
        envBaseBlock ++ (if strAuth ∈ cfg.additionalFeatures then envAuthBlock else [])) := by
  have hlen : cfg.additionalFeatures.length > 0 := by
    cases hx : cfg.additionalFeatures with
    | nil => exact absurd hx h3
    | cons a as => simp
  unfold scaffoldEnvFile
  rw [if_pos hlen]
  by_cases hA : strAuth ∈ cfg.additionalFeatures <;>
    simp [setupAdditionalFeaturesEnv, h1, h2, hA, strFrontend_ne_fullstack]

/-- C10 witness at a concrete frontend-only configuration requesting auth. -/
theorem C10_frontend_env_file_witness :
    scaffoldEnvFile cfgFrontReact =
      some (strEnvExample,
        envBaseBlock ++
          (if strAuth ∈ cfgFrontReact.additionalFeatures then envAuthBlock else [])) :=
  C10_frontend_env_file cfgFrontReact rfl rfl (by decide)

theorem containsSub_prefix_chunk (p q r : List Char) (hp : p ≠ [])
    (h : p.isPrefixOf q = true) : containsSub p (q ++ r) = true :=
  containsSub_of_isPrefixOf p (q ++ r) hp (isPrefixOf_append_left p q r h)

/-- C9: for the TypeScript backend variant a type-checking configuration
file is written at the backend root with an ES2020 target, strict mode on,
output directed to dist, and sources rooted at src; for the non-TypeScript
variant no such file is written. -/
theorem C9_tsconfig (cfg : Config) (h : ValidBackendConfig cfg) :
    (cfg.backendTemplate = some strExpressTs →
      ∃ t, createServerFileTsconfig cfg = some (strTsconfigJson, t) ∧
        t.compilerOptions.target = strES2020 ∧
        t.compilerOptions.strict = true ∧
        t.compilerOptions.outDir = strOutDirDist ∧
        t.compilerOptions.rootDir = strRootDirSrc) ∧
    (cfg.backendTemplate = some strExpressJs →
      createServerFileTsconfig cfg = Option.none) := by
  constructor
  · intro hbt
    have hts : backendIsTs cfg = true := by
      unfold backendIsTs; rw [hbt]; decide
    exact ⟨_, by unfold createServerFileTsconfig; rw [if_pos hts], rfl, rfl, rfl, rfl⟩
  · intro hbt
    have hts : backendIsTs cfg = false := by
      unfold backendIsTs; rw [hbt]; decide
    unfold createServerFileTsconfig
    rw [if_neg (by simp [hts])]

/-- C9 witness at a concrete TypeScript backend configuration. -/
theorem C9_tsconfig_witness :
    (cfgTsPg.backendTemplate = some strExpressTs →
      ∃ t, createServerFileTsconfig cfgTsPg = some (strTsconfigJson, t) ∧
        t.compilerOptions.target = strES2020 ∧
        t.compilerOptions.strict = true ∧
        t.compilerOptions.outDir = strOutDirDist ∧
        t.compilerOptions.rootDir = strRootDirSrc) ∧
    (cfgTsPg.backendTemplate = some strExpressJs →
      createServerFileTsconfig cfgTsPg = Option.none) :=
  C9_tsconfig cfgTsPg ⟨Or.inr rfl, Or.inr rfl, Or.inr (Or.inr rfl)⟩

/-- C8: for the Next.js family, frontend setup issues exactly one external
command carrying the TypeScript flag and the styling flag derived from the
configuration and performs no in-process styling step; for the React/Vite
family, the Vite external tool is invoked and the Styling Orchestrator runs
in-process exactly when includeTailwind is set. -/
theorem C8_frontend_plan (pname : List Char) (cfg : Config)
    (h : ValidFrontendConfig cfg) :
    (isNextJS cfg = true →
      (setupFrontendPlan pname cfg).commands.length = 1 ∧
      (setupFrontendPlan pname cfg).tailwindInProcess = false ∧
      ∀ cmd ∈ (setupFrontendPlan pname cfg).commands,
        containsSub strCreateNextApp cmd = true ∧
        containsSub
          (if cfg.frontendFramework = some strNextjsTs then strTsFlag else strJsFlag)
          cmd = true ∧
        containsSub
          (if cfg.includeTailwind then strTailwindFlag else strNoTailwindFlag)
          cmd = true) ∧
    (isNextJS cfg = false →
      (setupFrontendPlan pname cfg).commands.length = 1 ∧
      (∀ cmd ∈ (setupFrontendPlan pname cfg).commands,
        containsSub strCreateVite cmd = true) ∧
      (setupFrontendPlan pname cfg).tailwindInProcess = cfg.includeTailwind) := by
  obtain ⟨hpt, hff⟩ := h
  have hviteCase : ∀ fw : List Char, cfg.frontendFramework = some fw →
      isNextJS cfg = false →
      (setupFrontendPlan pname cfg).commands.length = 1 ∧
      (∀ cmd ∈ (setupFrontendPlan pname cfg).commands,
        containsSub strCreateVite cmd = true) ∧
      (setupFrontendPlan pname cfg).tailwindInProcess = cfg.includeTailwind := by
    intro fw hfw hN
    refine ⟨by simp [setupFrontendPlan, hN], ?_, by simp [setupFrontendPlan, hN]⟩
    intro cmd hcmd
    simp [setupFrontendPlan, hN, hfw] at hcmd
    subst hcmd
    exact containsSub_prefix_chunk _ _ _ (by decide) (by decide)
  have hnextCase : isNextJS cfg = true →
      (setupFrontendPlan pname cfg).commands.length = 1 ∧
      (setupFrontendPlan pname cfg).tailwindInProcess = false ∧
      ∀ cmd ∈ (setupFrontendPlan pname cfg).commands,
        containsSub strCreateNextApp cmd = true ∧
        containsSub
          (if cfg.frontendFramework = some strNextjsTs then strTsFlag else strJsFlag)
          cmd = true ∧
        containsSub
          (if cfg.includeTailwind then strTailwindFlag else strNoTailwindFlag)
          cmd = true := by
    intro hN
    refine ⟨by simp [setupFrontendPlan, hN], by simp [setupFrontendPlan, hN], ?_⟩
    intro cmd hcmd
    cases hTw : cfg.includeTailwind <;>
      by_cases hTsf : cfg.frontendFramework = some strNextjsTs <;>
      simp [setupFrontendPlan, hN, hTw, hTsf] at hcmd ⊢ <;>
      subst hcmd <;>
      exact ⟨containsSub_prefix_chunk _ _ _ (by decide) (by decide),
        containsSub_append_right _ _ _ (containsSub_append_right _ _ _
          (containsSub_append_right _ _ _
            (containsSub_prefix_chunk _ _ _ (by decide) (by decide)))),
        containsSub_append_right _ _ _ (containsSub_append_right _ _ _
          (containsSub_append_right _ _ _ (containsSub_append_right _ _ _
            (containsSub_append_right _ _ _
              (containsSub_prefix_chunk _ _ _ (by decide) (by decide))))))⟩
  rcases hff with hff | hff | hff | hff
  · have hN : isNextJS cfg = false := by unfold isNextJS; rw [hff]; decide
    exact ⟨fun hx => absurd (hN ▸ hx) (by decide), fun _ => hviteCase strReact hff hN⟩
  · have hN : isNextJS cfg = false := by unfold isNextJS; rw [hff]; decide
    exact ⟨fun hx => absurd (hN ▸ hx) (by decide), fun _ => hviteCase strReactTs hff hN⟩
  · have hN : isNextJS cfg = true := by unfold isNextJS; rw [hff]; decide
    exact ⟨fun _ => hnextCase hN, fun hx => absurd (hN ▸ hx) (by decide)⟩
  · have hN : isNextJS cfg = true := by unfold isNextJS; rw [hff]; decide
    exact ⟨fun _ => hnextCase hN, fun hx => absurd (hN ▸ hx) (by decide)⟩

/-- C8 witness at a concrete fullstack nextjs-ts configuration. -/
theorem C8_frontend_plan_witness :
    (isNextJS cfgNextTs = true →
      (setupFrontendPlan sampleName cfgNextTs).commands.length = 1 ∧
      (setupFrontendPlan sampleName cfgNextTs).tailwindInProcess = false ∧
      ∀ cmd ∈ (setupFrontendPlan sampleName cfgNextTs).commands,
        containsSub strCreateNextApp cmd = true ∧
        containsSub
          (if cfgNextTs.frontendFramework = some strNextjsTs then strTsFlag else strJsFlag)
          cmd = true ∧
        containsSub
          (if cfgNextTs.includeTailwind then strTailwindFlag else strNoTailwindFlag)
          cmd = true) ∧
    (isNextJS cfgNextTs = false →
      (setupFrontendPlan sampleName cfgNextTs).commands.length = 1 ∧
      (∀ cmd ∈ (setupFrontendPlan sampleName cfgNextTs).commands,
        containsSub strCreateVite cmd = true) ∧
      (setupFrontendPlan sampleName cfgNextTs).tailwindInProcess =
        cfgNextTs.includeTailwind) :=
  C8_frontend_plan sampleName cfgNextTs ⟨Or.inl rfl, Or.inr (Or.inr (Or.inr rfl))⟩

end Scaffold
